import Mathlib

/-!
Verification of the LCD1602 / PCF8574 display-driver stack: a shallow
embedding of `Old code/LCD1602.py` (classes `PCF8574_I2C` and `LCD1602`)
and of `src/physical_interface/lcd_screen.py` (classes `PFCF574_12C` and
`PCF8574_GPIO`), with theorems settling the frozen claims about them.

Machine bytes are modelled as `Nat` (Python integers are unbounded and all
values reaching the port here stay nonnegative); Python's `v & ~(1 << p)`
on nonnegative ints is `Nat.ldiff v (1 <<< p)`.  Bus writes are recorded in
an explicit log so transaction counts and "last byte transmitted" are
observable.
-/

namespace PCF8574

/-- State of the expander port: the cached byte `currentValue` and the log of
bytes actually transmitted on the I2C bus (most recent last). -/
structure PortState where
  currentValue : Nat
  busLog : List Nat
  deriving Repr, DecidableEq

/-- `PCF8574_I2C.writeByte` (LCD1602.py lines 24-26): cache the byte, then
transmit it on the bus. -/
def writeByte (value : Nat) (s : PortState) : PortState :=
  { currentValue := value, busLog := s.busLog ++ [value] }

/-- `PCF8574_I2C.readByte` (lines 21-22): return the cached byte. -/
def readByte (s : PortState) : Nat :=
  s.currentValue

/-- `PCF8574_I2C.digitalRead` (lines 28-30): `(value & (1 << pin) == (1 << pin)) and 1 or 0`. -/
def digitalRead (pin : Nat) (s : PortState) : Nat :=
  if readByte s &&& (1 <<< pin) = 1 <<< pin then 1 else 0

/-- `PCF8574_I2C.digitalWrite` (lines 32-38): set bit `pin` when `newvalue = 1`,
clear it when `newvalue = 0`, then always call `writeByte` with the result. -/
def digitalWrite (pin newvalue : Nat) (s : PortState) : PortState :=
  let value := s.currentValue
  let value :=
    if newvalue = 1 then value ||| (1 <<< pin)
    else if newvalue = 0 then Nat.ldiff value (1 <<< pin)
    else value
  writeByte value s

/-- `PCF8574_I2C.__init__` (lines 14-19): `currentValue = 0` then the
`writeByte(0)` liveness probe; the state a fresh port is in. -/
def initState : PortState :=
  writeByte 0 { currentValue := 0, busLog := [] }

theorem one_shiftLeft_testBit (x p : Nat) :
    (x &&& (1 <<< p) = 1 <<< p) ↔ x.testBit p := by
  rw [Nat.one_shiftLeft, Nat.and_two_pow]
  cases h : x.testBit p <;>
    simp [h, (Nat.two_pow_pos p).ne]

end PCF8574

/-- C4: for every pin `p` in 0..7 and bit `v ∈ {0,1}`, after
`PCF8574_I2C.digitalWrite(p, v)` a `digitalRead(p)` returns `v`, and every
bit of the cached `currentValue` other than bit `p` is unchanged. -/
theorem C4_digitalWrite_then_digitalRead (p v : Nat) (s : PCF8574.PortState)
    (hp : p ≤ 7) (hv : v = 0 ∨ v = 1) :
    PCF8574.digitalRead p (PCF8574.digitalWrite p v s) = v ∧
    ∀ q, q ≠ p →
      (PCF8574.digitalWrite p v s).currentValue.testBit q
        = s.currentValue.testBit q := by
  rcases hv with hv | hv <;> subst hv
  · constructor
    · simp only [PCF8574.digitalRead, PCF8574.digitalWrite, PCF8574.writeByte,
        PCF8574.readByte, PCF8574.one_shiftLeft_testBit]
      simp [Nat.testBit_ldiff, Nat.one_shiftLeft, Nat.testBit_two_pow_self]
    · intro q hq
      simp [PCF8574.digitalWrite, PCF8574.writeByte, Nat.testBit_ldiff,
        Nat.one_shiftLeft, Nat.testBit_two_pow_of_ne (fun h => hq h.symm)]
  · constructor
    · simp only [PCF8574.digitalRead, PCF8574.digitalWrite, PCF8574.writeByte,
        PCF8574.readByte, PCF8574.one_shiftLeft_testBit]
      simp [Nat.one_shiftLeft, Nat.testBit_two_pow_self]
    · intro q hq
      simp [PCF8574.digitalWrite, PCF8574.writeByte, Nat.testBit_or,
        Nat.one_shiftLeft, Nat.testBit_two_pow_of_ne (fun h => hq h.symm)]

/-- Witness for C4 at pin 5, value 1, cached byte 10. -/
theorem C4_witness :
    PCF8574.digitalRead 5 (PCF8574.digitalWrite 5 1 ⟨10, []⟩) = 1 :=
  (C4_digitalWrite_then_digitalRead 5 1 ⟨10, []⟩ (by decide) (Or.inr rfl)).1

namespace LCD1602

open PCF8574

def LCD_CLEARDISPLAY : Nat := 0x01
def LCD_RETURNHOME : Nat := 0x02
def LCD_ENTRYMODESET : Nat := 0x04
def LCD_DISPLAYCONTROL : Nat := 0x08
def LCD_FUNCTIONSET : Nat := 0x20
def LCD_SETDDRAMADDR : Nat := 0x80
def LCD_ENTRYLEFT : Nat := 0x02
def LCD_ENTRYSHIFTDECREMENT : Nat := 0x00
def LCD_DISPLAYON : Nat := 0x04
def LCD_CURSOROFF : Nat := 0x00
def LCD_BLINKOFF : Nat := 0x00
def LCD_4BITMODE : Nat := 0x00
def LCD_2LINE : Nat := 0x08
def LCD_5x8DOTS : Nat := 0x00

def RS : Nat := 0
def En : Nat := 2
def BL : Nat := 3

/-- `LCD1602.pulse_enable` (lines 120-127): enable low, high, low — three
`digitalWrite` calls (the sleeps do not touch the port). -/
def pulse_enable (s : PortState) : PortState :=
  digitalWrite En 0 (digitalWrite En 1 (digitalWrite En 0 s))

/-- The data-bit loop of `LCD1602.write_4bits` (lines 116-117):
`for i in range(4, 8): digitalWrite(i, (value >> (i-4)) & 1)`. -/
def setDataBits (value : Nat) (s : PortState) : PortState :=
  digitalWrite 7 ((value >>> 3) &&& 1)
    (digitalWrite 6 ((value >>> 2) &&& 1)
      (digitalWrite 5 ((value >>> 1) &&& 1)
        (digitalWrite 4 ((value >>> 0) &&& 1) s)))

/-- `LCD1602.write_4bits` (lines 114-118): the data-bit loop, then the enable pulse. -/
def write_4bits (value : Nat) (s : PortState) : PortState :=
  pulse_enable (setDataBits value s)

/-- The post-command settle delay, in microseconds, selected at LCD1602.py
lines 134-137: `if value < 4: sleep(0.002) else: sleep(0.00005)`. -/
def commandSettleDelayUs (value : Nat) : Nat :=
  if value < 4 then 2000 else 50

/-- `LCD1602.command` (lines 129-137): register-select 0, high nibble, low nibble. -/
def command (value : Nat) (s : PortState) : PortState :=
  write_4bits (value &&& 0x0F) (write_4bits (value >>> 4) (digitalWrite RS 0 s))

/-- `LCD1602.write_char` (lines 139-144): register-select 1, high nibble, low nibble. -/
def write_char (value : Nat) (s : PortState) : PortState :=
  write_4bits (value &&& 0x0F) (write_4bits (value >>> 4) (digitalWrite RS 1 s))

/-- The nibble presented on expander bits 4-7: bits 4..7 of the cached byte. -/
def dataNibble (s : PortState) : Nat :=
  (s.currentValue >>> 4) &&& 0xF

/-- The nibbles presented on expander bits 4-7 by the four `write_4bits` calls
of `LCD1602.init_display` (lines 90-100): backlight on, then
`write_4bits(0x30)` three times and `write_4bits(0x20)`, reading off the data
nibble after each data-bit loop (that is what the enable pulse latches). -/
def init_resync_nibbles : List Nat :=
  let s0 := digitalWrite BL 1 initState
  let s1 := setDataBits 0x30 s0
  let s2 := setDataBits 0x30 (pulse_enable s1)
  let s3 := setDataBits 0x30 (pulse_enable s2)
  let s4 := setDataBits 0x20 (pulse_enable s3)
  [dataNibble s1, dataNibble s2, dataNibble s3, dataNibble s4]

theorem digitalWrite_busLog_length (p v : Nat) (s : PortState) :
    (digitalWrite p v s).busLog.length = s.busLog.length + 1 := by
  simp [digitalWrite, writeByte]

end LCD1602

/-- C1: the initialization sequence is supposed to present nibble `0x3` three
times and then `0x2` on expander bits 4-7, but `write_4bits` takes its nibble
from bits 0-3 of its argument, so `write_4bits(0x30)` and `write_4bits(0x20)`
present nibble `0x0` all four times. -/
theorem C1_init_presents_zero_nibbles :
    LCD1602.init_resync_nibbles = [0, 0, 0, 0] ∧
    LCD1602.init_resync_nibbles ≠ [3, 3, 3, 2] := by
  have h : LCD1602.init_resync_nibbles = [0, 0, 0, 0] := by
    simp [LCD1602.init_resync_nibbles, LCD1602.setDataBits, LCD1602.pulse_enable,
      LCD1602.dataNibble, LCD1602.BL, LCD1602.En, PCF8574.initState,
      PCF8574.digitalWrite, PCF8574.writeByte, Nat.ldiff, Nat.bitwise]
  exact ⟨h, by rw [h]; decide⟩

/-- C6 counterexample: from the fresh-port state, one `write_4bits` call
issues seven bus transactions (four data-bit writes plus three writes of the
enable pulse), not five. -/
theorem C6_counterexample :
    (LCD1602.write_4bits 0x30 PCF8574.initState).busLog.length
      = PCF8574.initState.busLog.length + 7 ∧ (7 : Nat) ≠ 5 := by
  constructor
  · rfl
  · decide

/-- C6 (amended): every `write_4bits` call issues exactly seven byte-write bus
transactions (four data-bit writes plus the three writes of the enable pulse),
and every full command or character byte — a register-select write followed by
two nibbles — issues exactly fifteen. -/
theorem C6_transaction_counts (v : Nat) (s : PCF8574.PortState) :
    (LCD1602.write_4bits v s).busLog.length = s.busLog.length + 7 ∧
    (LCD1602.command v s).busLog.length = s.busLog.length + 15 ∧
    (LCD1602.write_char v s).busLog.length = s.busLog.length + 15 := by
  refine ⟨?_, ?_, ?_⟩ <;>
    simp [LCD1602.write_4bits, LCD1602.command, LCD1602.write_char,
      LCD1602.pulse_enable, LCD1602.setDataBits,
      LCD1602.digitalWrite_busLog_length]

/-- C7: the settle-delay class chosen by `command` is a pure function of the
command byte: values below 4 take the long (2 ms) path, values 4 and above the
short (50 µs) path; `clear()` and `home()` emit command bytes 1 and 2 and take
the long path, the Function-Set command takes the short path. -/
theorem C7_command_delay_classes :
    (∀ v, v < 4 → LCD1602.commandSettleDelayUs v = 2000) ∧
    (∀ v, 4 ≤ v → LCD1602.commandSettleDelayUs v = 50) ∧
    LCD1602.LCD_CLEARDISPLAY = 1 ∧ LCD1602.LCD_RETURNHOME = 2 ∧
    LCD1602.commandSettleDelayUs LCD1602.LCD_CLEARDISPLAY = 2000 ∧
    LCD1602.commandSettleDelayUs LCD1602.LCD_RETURNHOME = 2000 ∧
    LCD1602.commandSettleDelayUs
      (LCD1602.LCD_FUNCTIONSET ||| LCD1602.LCD_4BITMODE |||
        LCD1602.LCD_2LINE ||| LCD1602.LCD_5x8DOTS) = 50 := by
  refine ⟨fun v hv => ?_, fun v hv => ?_, rfl, rfl, rfl, rfl, rfl⟩
  · simp [LCD1602.commandSettleDelayUs, hv]
  · simp [LCD1602.commandSettleDelayUs, Nat.not_lt.mpr hv]

/-- Witness for C7 at command bytes 1 (long path) and 40 (short path). -/
theorem C7_witness :
    LCD1602.commandSettleDelayUs 1 = 2000 ∧ LCD1602.commandSettleDelayUs 40 = 50 :=
  ⟨C7_command_delay_classes.1 1 (by decide), C7_command_delay_classes.2.1 40 (by decide)⟩

namespace LCD1602

/-- Python list indexing `l[i]`: nonnegative indices from the front, negative
indices from the back, anything out of range raises IndexError (`none`). -/
def pyGet (l : List Nat) (i : Int) : Option Nat :=
  if 0 ≤ i then l.get? i.toNat
  else if 0 ≤ i + l.length then l.get? (i + l.length).toNat
  else none

/-- The `row_offsets` table of `LCD1602.set_cursor` (line 158). -/
def row_offsets : List Nat := [0x00, 0x40]

/-- `LCD1602.set_cursor` (lines 156-161), abstracted to the DDRAM-address
command byte it sends (`none` = IndexError before any command is sent):
`if row >= len(row_offsets): row = len(row_offsets) - 1`, then
`command(LCD_SETDDRAMADDR | (col + row_offsets[row]))`. -/
def set_cursor (col : Nat) (row : Int) : Option Nat :=
  let row := if (row_offsets.length : Int) ≤ row then (row_offsets.length : Int) - 1 else row
  (pyGet row_offsets row).map fun off => LCD_SETDDRAMADDR ||| (col + off)

/-- Python `str.ljust(width)` with the default space fill character. -/
def ljust (s : List Char) (width : Nat) : List Char :=
  s ++ List.replicate (width - s.length) ' '

/-- The `formatted_message` of `LCD1602.print_line` (line 172):
`str(message)[:16].ljust(16)`. -/
def formatLine (message : List Char) : List Char :=
  ljust (message.take 16) 16

/-- `LCD1602.print_line` (lines 168-173), abstracted to its observable output:
the cursor command sent by `set_cursor(0, line)` and the sequence of character
codes written via `print` / `write_char`. -/
def print_line (line : Int) (message : List Char) : Option Nat × List Nat :=
  (set_cursor 0 line, (formatLine message).map Char.toNat)

end LCD1602

/-- C8: for every column and every row ≥ 2, `set_cursor` behaves identically
to row 1, and the DDRAM address command sent is `0x80 ||| (col + 0x40)`,
i.e. `0x80 ||| (col + row_offsets[clamp(row,0,1)])`. -/
theorem C8_set_cursor_clamp (col : Nat) (row : Int) (h : 2 ≤ row) :
    LCD1602.set_cursor col row = LCD1602.set_cursor col 1 ∧
    LCD1602.set_cursor col row
      = some (LCD1602.LCD_SETDDRAMADDR ||| (col + 0x40)) := by
  have hlen : (2 : Int) ≤ row := h
  constructor <;>
    simp [LCD1602.set_cursor, LCD1602.pyGet, LCD1602.row_offsets, hlen]

/-- Witness for C8 at column 3, row 5. -/
theorem C8_witness :
    LCD1602.set_cursor 3 5 = some (LCD1602.LCD_SETDDRAMADDR ||| (3 + 0x40)) :=
  (C8_set_cursor_clamp 3 5 (by decide)).2

/-- C10: `set_cursor` does not clamp negative rows: row -1 sends the same
address as row 1 (offset 0x40), row -2 sends offset 0x00, and every row ≤ -3
raises IndexError (no command is sent). -/
theorem C10_set_cursor_negative_rows (col : Nat) (row : Int) :
    LCD1602.set_cursor col (-1) = LCD1602.set_cursor col 1 ∧
    LCD1602.set_cursor col (-1)
      = some (LCD1602.LCD_SETDDRAMADDR ||| (col + 0x40)) ∧
    LCD1602.set_cursor col (-2)
      = some (LCD1602.LCD_SETDDRAMADDR ||| (col + 0x00)) ∧
    (row ≤ -3 → LCD1602.set_cursor col row = none) := by
  refine ⟨?_, ?_, ?_, fun hr => ?_⟩
  · simp [LCD1602.set_cursor, LCD1602.pyGet, LCD1602.row_offsets]
  · simp [LCD1602.set_cursor, LCD1602.pyGet, LCD1602.row_offsets]
  · simp [LCD1602.set_cursor, LCD1602.pyGet, LCD1602.row_offsets]
  · have h1 : ¬ ((LCD1602.row_offsets.length : Int) ≤ row) := by
      simp [LCD1602.row_offsets]; omega
    have h2 : ¬ (0 ≤ row) := by omega
    have h3 : ¬ (0 ≤ row + (LCD1602.row_offsets.length : Int)) := by
      simp [LCD1602.row_offsets]; omega
    simp [LCD1602.set_cursor, LCD1602.pyGet, h1, h2, h3]

/-- Witness for C10 at column 0, row -3. -/
theorem C10_witness : LCD1602.set_cursor 0 (-3) = none :=
  (C10_set_cursor_negative_rows 0 (-3)).2.2.2 (by decide)

/-- C2: for every row in {0,1} and every input string, `print_line(row, text)`
writes exactly 16 character codes: the input truncated to its first 16
characters and right-padded with spaces to exactly 16; the cursor command
targets column 0 of the requested row. -/
theorem C2_print_line_sixteen_chars (line : Int) (message : List Char)
    (h : line = 0 ∨ line = 1) :
    (LCD1602.print_line line message).2.length = 16 ∧
    (message.length ≤ 16 →
      (LCD1602.print_line line message).2
        = (message ++ List.replicate (16 - message.length) ' ').map Char.toNat) ∧
    (16 ≤ message.length →
      (LCD1602.print_line line message).2 = (message.take 16).map Char.toNat) ∧
    (LCD1602.print_line line message).1
      = some (LCD1602.LCD_SETDDRAMADDR |||
          (0 + if line = 0 then 0x00 else 0x40)) := by
  refine ⟨?_, fun hle => ?_, fun hge => ?_, ?_⟩
  · simp [LCD1602.print_line, LCD1602.formatLine, LCD1602.ljust]
  · simp [LCD1602.print_line, LCD1602.formatLine, LCD1602.ljust,
      List.take_of_length_le hle]
  · simp [LCD1602.print_line, LCD1602.formatLine, LCD1602.ljust]
    omega
  · rcases h with h | h <;> subst h <;>
      simp [LCD1602.print_line, LCD1602.set_cursor, LCD1602.pyGet,
        LCD1602.row_offsets]

/-- Witness for C2: row 0, the 11-character message "Time: 00:15" is padded
to 16. -/
theorem C2_witness :
    (LCD1602.print_line 0 "Time: 00:15".toList).2.length = 16 :=
  (C2_print_line_sixteen_chars 0 "Time: 00:15".toList (Or.inl rfl)).1

/-- Python exceptions observable in this development. -/
inductive PyError where
  | attributeError
  | ioError
  deriving Repr, DecidableEq

namespace PFCF574

open PCF8574

/-- `PFCF574_12C.digitalWrite` (lcd_screen.py lines 23-28): when `newvalue = 1`
the body computes `value |= (1 << pin)` into a local that is then discarded —
no write happens; when `newvalue = 0` it calls `writeByte(value)` with the
cached byte unchanged (the bit is never cleared); otherwise nothing happens. -/
def digitalWrite (pin newvalue : Nat) (s : PortState) : PortState :=
  let value := s.currentValue
  if newvalue = 1 then s
  else if newvalue = 0 then PCF8574.writeByte value s
  else s

/-- The attribute names defined on class `PFCF574_12C` (lcd_screen.py lines
4-28): Python resolves `self.writeBype` against these. -/
def classAttributes : List String :=
  ["OUTPUT", "InPUT", "__init__", "readByte", "writeByte", "digitalRead", "digitalWrite"]

/-- `PFCF574_12C.__init__` (lcd_screen.py lines 7-11): sets `currentValue = 0`
then calls `self.writeBype(0)`; the attribute lookup of `writeBype` decides
whether the liveness-probe write runs.  Returns the construction result and
the list of bytes that reached the bus during construction. -/
def init (address : Nat) : Except PyError PortState × List Nat :=
  let s : PortState := { currentValue := 0, busLog := [] }
  if "writeBype" ∈ classAttributes then
    let s1 := PCF8574.writeByte 0 s
    (Except.ok s1, s1.busLog)
  else
    (Except.error PyError.attributeError, s.busLog)

/-- `PCF8574_GPIO.__init__` (lcd_screen.py lines 45-47): constructs
`PFCF574_12C(address)` as its `chip`; any exception propagates. -/
def gpio_init (address : Nat) : Except PyError PortState × List Nat :=
  init address

end PFCF574

/-- C9: for every I2C address, constructing `PFCF574_12C` (and hence
`PCF8574_GPIO`) raises AttributeError, because `__init__` invokes the
undefined method `writeBype(0)`; no byte ever reaches the bus during
construction. -/
theorem C9_construction_raises (address : Nat) :
    (PFCF574.init address).1 = Except.error PyError.attributeError ∧
    (PFCF574.init address).2 = [] ∧
    (PFCF574.gpio_init address).1 = Except.error PyError.attributeError := by
  refine ⟨?_, ?_, ?_⟩ <;>
    simp [PFCF574.init, PFCF574.gpio_init, PFCF574.classAttributes]

/-- C3 failing input: `PFCF574_12C.digitalWrite(3, 1)` from a port whose
cached byte is 0 performs no bus write at all and leaves the cache at 0
(the claim requires exactly one bus write of the updated byte 8), and
`digitalWrite(3, 0)` from cached byte 8 transmits the unchanged byte 8
instead of the cleared byte 0. -/
theorem C3_digitalWrite_bug :
    (PFCF574.digitalWrite 3 1 ⟨0, []⟩).busLog = [] ∧
    (PFCF574.digitalWrite 3 1 ⟨0, []⟩).currentValue = 0 ∧
    (PFCF574.digitalWrite 3 1 ⟨0, []⟩).busLog.length ≠ 1 ∧
    (PFCF574.digitalWrite 3 0 ⟨8, []⟩).busLog = [8] ∧
    (PFCF574.digitalWrite 3 0 ⟨8, []⟩).busLog ≠ [0] := by
  refine ⟨rfl, rfl, by decide, rfl, by decide⟩

/-- `PCF8574_I2C.writeByte` with an explicit bus outcome: the cache is
assigned first (`self.currentValue = value`), then `self.bus.write_byte`
either appends the byte to the bus log or raises an I/O error that
propagates. -/
def writeByteE (busFails : Bool) (value : Nat) (s : PCF8574.PortState) :
    PCF8574.PortState × Option PyError :=
  let s1 : PCF8574.PortState := { currentValue := value, busLog := s.busLog }
  if busFails then (s1, some PyError.ioError)
  else ({ s1 with busLog := s1.busLog ++ [value] }, none)

/-- C5 counterexample: a port whose cache 5 equals the last transmitted byte
5 runs `writeByte(9)` whose bus write fails: the error propagates, the bus
log still ends in 5, but `currentValue` is 9 — it did change and no longer
equals the last byte actually written to the bus. -/
theorem C5_counterexample :
    (writeByteE true 9 ⟨5, [5]⟩).1.currentValue = 9 ∧
    (writeByteE true 9 ⟨5, [5]⟩).1.busLog = [5] ∧
    (writeByteE true 9 ⟨5, [5]⟩).2 = some PyError.ioError ∧
    (writeByteE true 9 ⟨5, [5]⟩).1.currentValue ≠ 5 := by
  refine ⟨rfl, rfl, rfl, by decide⟩

/-- C5 (amended): after every `writeByte(value)` call, failed or not,
`currentValue` equals the attempted byte: on success that byte is also the
last byte on the bus, but on a failed bus write the bus log is unchanged and
the error propagates, so `currentValue` holds the attempted byte rather than
the last successfully transmitted one. -/
theorem C5_cache_is_attempted_byte (busFails : Bool) (value : Nat)
    (s : PCF8574.PortState) :
    (writeByteE busFails value s).1.currentValue = value ∧
    (busFails = false →
      (writeByteE busFails value s).1.busLog.getLast? = some value ∧
      (writeByteE busFails value s).2 = none) ∧
    (busFails = true →
      (writeByteE busFails value s).1.busLog = s.busLog ∧
      (writeByteE busFails value s).2 = some PyError.ioError) := by
  cases busFails <;>
    simp [writeByteE]

/-- Witness for C5's amended theorem: a failing write of 7 over cache 0
leaves the bus log empty. -/
theorem C5_witness : (writeByteE true 7 ⟨0, []⟩).1.busLog = [] :=
  ((C5_cache_is_attempted_byte true 7 ⟨0, []⟩).2.2 rfl).1
